import Mathlib

/-
Verification development for the vton-widget repository: a server-side
virtual try-on proxy.  The definitions below are a shallow embedding of the
JavaScript sources in src/ (server.js, api/process.js, api/vton-process.js,
services/VirtualTryOnService.js, routes/virtualTryOn.js).  Strings are
modelled as lists of characters, buffers as lists of byte values (Nat),
filesystem and network effects as explicit oracle parameters, and the
JavaScript event loop's atomic blocks (code between await points) as atomic
steps of small state machines.
-/

namespace VtonWidget

/-- Strings are lists of characters; JS string methods are modelled below. -/
abbrev Str := List Char

def strL (s : String) : Str := s.data

/-- ASCII lower-casing of one character, as String.prototype.toLowerCase
acts on the ASCII message text used by the classifiers. -/
def lowerChar (c : Char) : Char :=
  if 65 ≤ c.toNat ∧ c.toNat ≤ 90 then Char.ofNat (c.toNat + 32) else c

def lowerStr (s : Str) : Str := s.map lowerChar

/-- Does the second string start with the first one? -/
def begMatch : Str → Str → Bool
  | [], _ => true
  | _ :: _, [] => false
  | a :: as, b :: bs => a == b && begMatch as bs

/-- JS String.prototype.includes: does hay contain needle as a substring? -/
def hasSub : Str → Str → Bool
  | [], needle => needle.isEmpty
  | c :: t, needle => begMatch needle (c :: t) || hasSub t needle

/-- Case-insensitive containment, msg.toLowerCase().includes(k.toLowerCase()). -/
def containsCI (m k : Str) : Bool := hasSub (lowerStr m) (lowerStr k)

/-- Split a string at the first occurrence of a (non-empty) separator,
returning the parts before and after it; none when the separator does not
occur.  Mirrors the first step of JS String.prototype.split. -/
def splitFirst (sep : Str) : Str → Option (Str × Str)
  | [] => none
  | c :: t =>
    if begMatch sep (c :: t) then some ([], (c :: t).drop sep.length)
    else
      match splitFirst sep t with
      | none => none
      | some (a, b) => some (c :: a, b)

def b64MarkerL : Str := strL ";base64,"

/-- The payload-selection step of base64ToBuffer in all source variants:
parts = s.split(';base64,'); parts.length > 1 ? parts[1] : s.  JS split is
non-overlapping and left-to-right, so parts[1] is the segment between the
first and the second occurrence of the marker. -/
def extractDataPayload (s : Str) : Str :=
  match splitFirst b64MarkerL s with
  | none => s
  | some (_, rest) =>
    match splitFirst b64MarkerL rest with
    | none => rest
    | some (a, _) => a

/-- The standard base64 alphabet used by Node's Buffer. -/
def b64Alphabet : Str :=
  strL "ABCDEFGHIJKLMNOPQRSTUVWXYZabcdefghijklmnopqrstuvwxyz0123456789+/"

def sextetToChar (n : Nat) : Char := b64Alphabet.getD n 'A'

/-- Node's lenient base64 decoder accepts the standard and the URL-safe
alphabet and silently ignores every other character (including '=' and
whitespace); it never throws. -/
def charToSextet (c : Char) : Option Nat :=
  if 65 ≤ c.toNat ∧ c.toNat ≤ 90 then some (c.toNat - 65)
  else if 97 ≤ c.toNat ∧ c.toNat ≤ 122 then some (c.toNat - 97 + 26)
  else if 48 ≤ c.toNat ∧ c.toNat ≤ 57 then some (c.toNat - 48 + 52)
  else if c = '+' ∨ c = '-' then some 62
  else if c = '/' ∨ c = '_' then some 63
  else none

/-- Reassemble bytes from 6-bit groups; a trailing group of two or three
sextets yields one or two bytes, a single trailing sextet yields none. -/
def sextetsToBytes : List Nat → List Nat
  | a :: b :: c :: d :: rest =>
    (a * 4 + b / 16) :: ((b % 16) * 16 + c / 4) :: ((c % 4) * 64 + d) ::
      sextetsToBytes rest
  | [a, b, c] => [a * 4 + b / 16, (b % 16) * 16 + c / 4]
  | [a, b] => [a * 4 + b / 16]
  | _ => []

/-- Buffer.from(s, 'base64'): total, lenient decoding. -/
def b64DecodeStr (s : Str) : List Nat := sextetsToBytes (s.filterMap charToSextet)

/-- base64ToBuffer from src/server.js, src/api/*.js and
src/services/VirtualTryOnService.js: strip the optional data-URI marker,
then decode leniently; defined for every input string. -/
def base64ToBuffer (s : Str) : List Nat := b64DecodeStr (extractDataPayload s)

/-- buffer.toString('base64'): standard base64 encoding with '=' padding,
as produced by Node for the response payload. -/
def b64Encode : List Nat → Str
  | b0 :: b1 :: b2 :: rest =>
    sextetToChar (b0 / 4) :: sextetToChar ((b0 % 4) * 16 + b1 / 16) ::
      sextetToChar ((b1 % 16) * 4 + b2 / 64) :: sextetToChar (b2 % 64) ::
      b64Encode rest
  | [b0, b1] =>
    [sextetToChar (b0 / 4), sextetToChar ((b0 % 4) * 16 + b1 / 16),
     sextetToChar ((b1 % 16) * 4), '=']
  | [b0] =>
    [sextetToChar (b0 / 4), sextetToChar ((b0 % 4) * 16), '=', '=']
  | [] => []

lemma charToSextet_sextetToChar_fin :
    ∀ n : Fin 64, charToSextet (sextetToChar n.val) = some n.val := by decide

lemma charToSextet_sextetToChar {n : Nat} (h : n < 64) :
    charToSextet (sextetToChar n) = some n :=
  charToSextet_sextetToChar_fin ⟨n, h⟩

lemma charToSextet_eq : charToSextet '=' = none := by decide

/-- Round trip: Node's lenient decoder inverts the standard encoder on any
genuine byte list. -/
theorem b64_decode_encode (bs : List Nat) (h : ∀ b ∈ bs, b < 256) :
    b64DecodeStr (b64Encode bs) = bs := by
  match bs with
  | [] => rfl
  | [b0] =>
    have hb0 : b0 < 256 := h b0 (by simp)
    simp only [b64Encode, b64DecodeStr]
    rw [List.filterMap_cons, charToSextet_sextetToChar (by omega),
        List.filterMap_cons, charToSextet_sextetToChar (by omega),
        List.filterMap_cons, charToSextet_eq, List.filterMap_cons,
        charToSextet_eq, List.filterMap_nil]
    simp only [sextetsToBytes, List.cons.injEq, and_true]
    omega
  | [b0, b1] =>
    have hb0 : b0 < 256 := h b0 (by simp)
    have hb1 : b1 < 256 := h b1 (by simp)
    simp only [b64Encode, b64DecodeStr]
    rw [List.filterMap_cons, charToSextet_sextetToChar (by omega),
        List.filterMap_cons, charToSextet_sextetToChar (by omega),
        List.filterMap_cons, charToSextet_sextetToChar (by omega),
        List.filterMap_cons, charToSextet_eq, List.filterMap_nil]
    simp only [sextetsToBytes, List.cons.injEq, and_true]
    exact ⟨by omega, by omega⟩
  | b0 :: b1 :: b2 :: rest =>
    have hb0 : b0 < 256 := h b0 (by simp)
    have hb1 : b1 < 256 := h b1 (by simp)
    have hb2 : b2 < 256 := h b2 (by simp)
    have ih := b64_decode_encode rest (fun b hb => h b (by simp [hb]))
    simp only [b64Encode, b64DecodeStr] at ih ⊢
    rw [List.filterMap_cons, charToSextet_sextetToChar (by omega),
        List.filterMap_cons, charToSextet_sextetToChar (by omega),
        List.filterMap_cons, charToSextet_sextetToChar (by omega),
        List.filterMap_cons, charToSextet_sextetToChar (by omega)]
    simp only [sextetsToBytes, List.cons.injEq]
    exact ⟨by omega, by omega, by omega, ih⟩
termination_by bs.length

/-- JS truthiness of a string: non-empty. -/
def isTruthyS (s : Str) : Bool := !s.isEmpty

/-- Truthiness of an optional string-valued object field: present and
non-empty (absent fields read as undefined, which is falsy). -/
def truthyOpt : Option Str → Bool
  | some s => isTruthyS s
  | none => false

/-- One entry of the remote response's data array: a JS object carrying
optional string fields name/url/path, a plain string, or any other value
(null, number, ...), which has no such fields and is not a string. -/
inductive GItem
  | obj (name url path : Option Str)
  | str (s : Str)
  | other
deriving DecidableEq

/-- The raw remote response: result.data is its output array. -/
structure GResult where
  data : List GItem
deriving DecidableEq

/-- Result extraction in src/server.js, src/api/process.js and
src/api/vton-process.js: take the first entry of result.data; try
firstItem.name, then a plain string, then firstItem.url; afterwards the
handlers treat a falsy outputPath as no extraction. -/
def extractOutput (r : GResult) : Option Str :=
  let op : Option Str :=
    match r.data.head? with
    | some (GItem.obj name url _path) =>
      if truthyOpt name then name
      else if truthyOpt url then url
      else none
    | some (GItem.str s) => some s
    | some GItem.other => none
    | none => none
  match op with
  | some s => if isTruthyS s then some s else none
  | none => none

/-- Result extraction in src/services/VirtualTryOnService.js: for an object
first entry it takes firstResult.url || firstResult.path (never .name);
a plain string is taken as is; a falsy imageUrl afterwards counts as no
extraction. -/
def serviceExtract (r : GResult) : Option Str :=
  let op : Option Str :=
    match r.data.head? with
    | some (GItem.obj _name url path) =>
      if truthyOpt url then url
      else if truthyOpt path then path
      else none
    | some (GItem.str s) => some s
    | some GItem.other => none
    | none => none
  match op with
  | some s => if isTruthyS s then some s else none
  | none => none

def startsWithHttp (s : Str) : Bool := begMatch (strL "http") s

/-- Quota keyword list of src/server.js isQuotaError. -/
def serverQuotaKeywords : List Str :=
  [strL "zerogpu quota", strL "quota", strL "out of quota", strL "daily quota",
   strL "rate limit", strL "too many requests", strL "429", strL "generic error"]

/-- Quota keyword list of src/api/process.js isQuotaError (adds overload). -/
def processQuotaKeywords : List Str :=
  [strL "zerogpu quota", strL "quota", strL "out of quota", strL "daily quota",
   strL "rate limit", strL "too many requests", strL "429", strL "generic error",
   strL "overload"]

/-- Quota keyword list of src/api/vton-process.js isQuotaError; that variant
lower-cases both the message and the keyword. -/
def vtonQuotaKeywords : List Str :=
  [strL "zerogpu", strL "quota", strL "overload", strL "unavailable",
   strL "rate limit", strL "too many", strL "429", strL "timeout",
   strL "asleep", strL "Processing_Timeout"]

def isQuotaErrorServer (m : Str) : Bool :=
  serverQuotaKeywords.any (fun k => hasSub (lowerStr m) k)

def isQuotaErrorProcess (m : Str) : Bool :=
  processQuotaKeywords.any (fun k => hasSub (lowerStr m) k)

def isQuotaErrorVton (m : Str) : Bool :=
  vtonQuotaKeywords.any (fun k => hasSub (lowerStr m) (lowerStr k))

/-- QUOTA_ERROR_MESSAGE shared by src/server.js and src/api/process.js. -/
def quotaErrorMessage : Str :=
  strL "The AI service daily quota appears to be full or the service is overloaded. Please try again after 3 PM IST."

/-- Classification of a caught error message in the catch block of
app.post('/api/vton/process') in src/server.js.  Returns the HTTP status
code, the public message, and the errorType field. -/
def serverClassify (m : Str) : Nat × Str × Str :=
  if isQuotaErrorServer m || hasSub m (strL "The AI service returned a generic error") then
    (429, quotaErrorMessage, strL "quota_limit")
  else if hasSub m (strL "Authentication failed") || hasSub m (strL "unauthorized") then
    (401, strL "Authentication failed. Check your HF_TOKEN and ensure it has read permissions for the model.", strL "error")
  else if hasSub m (strL "timed out") || hasSub m (strL "Timeout") then
    (504, strL "Processing timed out. The AI model took too long to respond. Please try again.", strL "error")
  else if hasSub m (strL "ECONNREFUSED") || hasSub m (strL "Failed to fetch") then
    (503, strL "AI model service is unavailable or inaccessible. Please try again in a moment.", strL "error")
  else if hasSub m (strL "Invalid or empty result") then
    (500, strL "The AI model returned an invalid result. The input images might not be suitable.", strL "error")
  else
    (500, if m.isEmpty then strL "Failed to process images. An internal server or AI service error occurred." else m, strL "error")

/-- Classification in the catch block of the handler in src/api/process.js. -/
def processClassify (m : Str) : Nat × Str × Str :=
  if isQuotaErrorProcess m then
    (429, quotaErrorMessage, strL "quota_limit")
  else if hasSub m (strL "Authentication failed") || hasSub m (strL "unauthorized") then
    (401, strL "Authentication failed. Check your HF_TOKEN.", strL "error")
  else if hasSub m (strL "timed out") || hasSub m (strL "Timeout") then
    (504, strL "Processing timed out. Please try again.", strL "error")
  else if hasSub m (strL "ECONNREFUSED") || hasSub m (strL "Failed to fetch") then
    (503, strL "AI service unavailable. Please try again in a moment.", strL "error")
  else
    (500, if m.isEmpty then strL "Failed to process images" else m, strL "error")

/-- Classification in the catch block of the handler in
src/api/vton-process.js. -/
def vtonClassify (m : Str) : Nat × Str × Str :=
  if hasSub m (strL "HF_TOKEN") then
    (500, strL "Server configuration error: Hugging Face token is missing or invalid.", strL "error")
  else if hasSub m (strL "Processing_Timeout") then
    (504, strL "Processing timed out. The AI model may be overloaded or asleep. Please try again in a few minutes.", strL "error")
  else if isQuotaErrorVton m then
    (429, strL "AI service quota limit reached. Please try again later.", strL "quota_limit")
  else if hasSub m (strL "Invalid_Result") then
    (500, strL "AI model returned an invalid result. Try using different images.", strL "error")
  else
    (500, strL "Failed to process images", strL "error")

/-- Classification in the catch block of router.post('/process') in
src/routes/virtualTryOn.js; this entry point has no quota category and no
errorType field. -/
def routeClassify (m : Str) : Nat × Str :=
  if hasSub m (strL "timed out") || hasSub m (strL "asleep") then
    (504, strL "Processing timed out. The AI service may be overloaded or asleep. Please try again.")
  else if hasSub m (strL "Authentication failed") then
    (401, strL "Authentication failed. Check HF_TOKEN environment variable.")
  else if hasSub m (strL "AI service connection failed") then
    (503, strL "AI service is unavailable or inaccessible. Please try again later.")
  else
    (500, strL "Failed to process image. An internal error occurred.")

/-- Which side of Promise.race([predictionPromise, timeoutPromise]) settles
first for a given request. -/
inductive RaceW
  | pred
  | timer
deriving DecidableEq

/-- Lifecycle of one per-request temporary file. -/
inductive FState
  | absent
  | created
  | deleted
deriving DecidableEq

/-- The message constants that differ between the src/server.js and the
src/api/process.js copies of processVirtualTryOn. -/
structure CoreMsgs where
  timeoutName : Str
  timeoutTranslated : Str
  invalidResult : Str
  authTranslated : Str
  unknownMsg : Str

/-- src/server.js texts. -/
def serverMsgs : CoreMsgs where
  timeoutName := strL "Gradio_Prediction_Timeout"
  timeoutTranslated := strL "Processing timed out after 3 minutes. The AI service may be overloaded or asleep."
  invalidResult := strL "Invalid or empty result from Gradio API. Output path not found."
  authTranslated := strL "Authentication failed. Please check if your HF_TOKEN is valid and has read access to the model."
  unknownMsg := strL "An unknown error occurred during Gradio processing."

/-- src/api/process.js texts. -/
def processMsgs : CoreMsgs where
  timeoutName := strL "Gradio_Prediction_Timeout"
  timeoutTranslated := strL "Processing timed out after 3 minutes. The AI service may be overloaded or asleep."
  invalidResult := strL "Invalid or empty result from Gradio API"
  authTranslated := strL "Authentication failed. Please check if your HF_TOKEN is valid."
  unknownMsg := strL "An unknown error occurred during processing."

/-- The catch-block translation of processVirtualTryOn in src/server.js and
src/api/process.js: an exact 'Gradio_Prediction_Timeout' message becomes the
translated timeout text, an empty message the unknown-error text, and any
message mentioning 401/unauthorized (case-insensitively) the auth text.
Remote errors are modelled by their message strings; the nested
error.detail object shapes of the source collapse to the message they
produce. -/
def translateCore (ms : CoreMsgs) (m : Str) : Str :=
  let m1 := if m = ms.timeoutName then ms.timeoutTranslated
            else if m.isEmpty then ms.unknownMsg else m
  if hasSub (lowerStr m1) (strL "401") || hasSub (lowerStr m1) (strL "unauthorized") then
    ms.authTranslated
  else m1

/-- Oracle environment for one request through processVirtualTryOn: the
outcome of each filesystem write, of the lazy client initialization, of the
prediction-versus-timer race, and of the two ways of fetching the result
bytes.  Unlink flags say whether each fs.unlinkSync call would succeed. -/
structure CoreEnv where
  writePerson : Except Str Unit
  writeCloth : Except Str Unit
  clientInit : Except Str Unit
  raceWinner : RaceW
  predictOutcome : Except Str GResult
  fetchRes : Str → Except Str (List Nat)
  readFileRes : Str → Except Str (List Nat)
  unlinkPersonOk : Bool
  unlinkClothOk : Bool

instance exceptDecEq {ε α : Type} [DecidableEq ε] [DecidableEq α] :
    DecidableEq (Except ε α) := fun a b =>
  match a, b with
  | .ok x, .ok y =>
    if h : x = y then isTrue (by rw [h])
    else isFalse (by intro hc; cases hc; exact h rfl)
  | .error x, .error y =>
    if h : x = y then isTrue (by rw [h])
    else isFalse (by intro hc; cases hc; exact h rfl)
  | .ok _, .error _ => isFalse (by intro h; cases h)
  | .error _, .ok _ => isFalse (by intro h; cases h)

/-- State of one request just before the finally block: its outcome, the
two temp files, and how often client.predict was called. -/
structure BodyOut where
  result : Except Str Str
  person : FState
  cloth : FState
  predicts : Nat
deriving DecidableEq

/-- State of one request after the finally block ran: warns counts the
logged cleanup failures. -/
structure RunOut where
  result : Except Str Str
  person : FState
  cloth : FState
  warns : Nat
  predicts : Nat
deriving DecidableEq

/-- The try block of processVirtualTryOn (src/server.js and
src/api/process.js): stage both images, get the client, race the
prediction against the timer, extract the output reference, fetch or read
the bytes, and base64-encode them; every throw is routed through the
catch-block translation. -/
def coreBody (ms : CoreMsgs) (wp wc ci : Except Str Unit) (rw : RaceW)
    (po : Except Str GResult) (fr rr : Str → Except Str (List Nat)) : BodyOut :=
  match wp with
  | .error e => ⟨.error (translateCore ms e), .absent, .absent, 0⟩
  | .ok _ =>
  match wc with
  | .error e => ⟨.error (translateCore ms e), .created, .absent, 0⟩
  | .ok _ =>
  match ci with
  | .error e => ⟨.error (translateCore ms e), .created, .created, 0⟩
  | .ok _ =>
  match (match rw with
         | RaceW.timer => Except.error ms.timeoutName
         | RaceW.pred => po) with
  | .error e => ⟨.error (translateCore ms e), .created, .created, 1⟩
  | .ok r =>
  match extractOutput r with
  | none => ⟨.error (translateCore ms ms.invalidResult), .created, .created, 1⟩
  | some outPath =>
  match (if startsWithHttp outPath then fr outPath else rr outPath) with
  | .error e => ⟨.error (translateCore ms e), .created, .created, 1⟩
  | .ok bytes => ⟨.ok (b64Encode bytes), .created, .created, 1⟩

/-- The finally block of processVirtualTryOn in src/server.js and
src/api/process.js: one try/catch around both unlinkSync calls, so a
failure deleting the person file skips the cloth file; the catch only
logs a warning. -/
def coreCleanup (upOk ucOk : Bool) (p c : FState) : FState × FState × Nat :=
  if p = FState.created then
    if upOk then
      if c = FState.created then
        if ucOk then (.deleted, .deleted, 0) else (.deleted, .created, 1)
      else (.deleted, c, 0)
    else (.created, c, 1)
  else
    if c = FState.created then
      if ucOk then (p, .deleted, 0) else (p, .created, 1)
    else (p, c, 0)

/-- processVirtualTryOn end to end: try block then finally block. -/
def coreRun (ms : CoreMsgs) (env : CoreEnv) : RunOut :=
  let b := coreBody ms env.writePerson env.writeCloth env.clientInit
    env.raceWinner env.predictOutcome env.fetchRes env.readFileRes
  let cl := coreCleanup env.unlinkPersonOk env.unlinkClothOk b.person b.cloth
  ⟨b.result, cl.1, cl.2.1, cl.2.2, b.predicts⟩

/-- The try block of processVirtualTryOn in src/api/vton-process.js: same
staging, race (with message 'Processing_Timeout'), extraction
('Invalid_Result_From_Gradio'), and fetch, but the catch block rethrows
the raw error without translation. -/
def vtonBody (wp wc ci : Except Str Unit) (rw : RaceW)
    (po : Except Str GResult) (fr rr : Str → Except Str (List Nat)) : BodyOut :=
  match wp with
  | .error e => ⟨.error e, .absent, .absent, 0⟩
  | .ok _ =>
  match wc with
  | .error e => ⟨.error e, .created, .absent, 0⟩
  | .ok _ =>
  match ci with
  | .error e => ⟨.error e, .created, .created, 0⟩
  | .ok _ =>
  match (match rw with
         | RaceW.timer => Except.error (strL "Processing_Timeout")
         | RaceW.pred => po) with
  | .error e => ⟨.error e, .created, .created, 1⟩
  | .ok r =>
  match extractOutput r with
  | none => ⟨.error (strL "Invalid_Result_From_Gradio"), .created, .created, 1⟩
  | some outPath =>
  match (if startsWithHttp outPath then fr outPath else rr outPath) with
  | .error e => ⟨.error e, .created, .created, 1⟩
  | .ok bytes => ⟨.ok (b64Encode bytes), .created, .created, 1⟩

/-- Cleanup of one file with its own try/catch (the forEach in
src/api/vton-process.js and cleanupTempFile in the service). -/
def soloCleanup (ok : Bool) (f : FState) : FState × Nat :=
  if f = FState.created then
    if ok then (.deleted, 0) else (.created, 1)
  else (f, 0)

/-- processVirtualTryOn of src/api/vton-process.js end to end; its finally
block cleans each file under its own try/catch. -/
def vtonRun (env : CoreEnv) : RunOut :=
  let b := vtonBody env.writePerson env.writeCloth env.clientInit
    env.raceWinner env.predictOutcome env.fetchRes env.readFileRes
  let p := soloCleanup env.unlinkPersonOk b.person
  let c := soloCleanup env.unlinkClothOk b.cloth
  ⟨b.result, p.1, c.1, p.2 + c.2, b.predicts⟩

/-- Service configuration (src/services/VirtualTryOnService.js constructor):
retryAttempts defaults to 2, timeout to 180000 ms; the route constructs the
service with exactly these values. -/
structure SvcCfg where
  retryAttempts : Nat
  timeoutMs : Nat
deriving DecidableEq

def defaultSvcCfg : SvcCfg := ⟨2, 180000⟩

/-- Outcome of one whole attempt of callGradioAPI (client initialization,
prediction race, extraction and download together): the downloaded bytes,
or the message of whatever error the attempt threw.  A timer win surfaces
as a message containing 'Gradio_Prediction_Timeout'. -/
inductive AttemptRes
  | ok (bytes : List Nat)
  | fail (msg : Str)

structure CallOut where
  result : Except Str (List Nat)
  lastAttempt : Nat
  delays : List Nat
deriving DecidableEq

def svcTimeoutToken : Str := strL "Gradio_Prediction_Timeout"

/-- The error translation at the end of callGradioAPI's catch block. -/
def translateSvc (m : Str) : Str :=
  if hasSub m svcTimeoutToken then
    strL "Processing timed out. The AI service may be overloaded or asleep."
  else if hasSub (lowerStr m) (strL "401") || hasSub (lowerStr m) (strL "unauthorized") then
    strL "Authentication failed. Check HF_TOKEN."
  else m

/-- Recursion worker for callGradioAPI; remaining is the exact number of
retries still allowed, i.e. retryAttempts - attempt, so the source's guard
attempt < retryAttempts is remaining > 0. -/
def callAux (oracle : Nat → AttemptRes) : Nat → Nat → CallOut
  | remaining, attempt =>
    match oracle attempt with
    | .ok bytes => ⟨.ok bytes, attempt, []⟩
    | .fail m =>
      match remaining with
      | 0 => ⟨.error (translateSvc m), attempt, []⟩
      | r + 1 =>
        if hasSub m svcTimeoutToken then ⟨.error (translateSvc m), attempt, []⟩
        else
          let rest := callAux oracle r (attempt + 1)
          ⟨rest.result, rest.lastAttempt, (2 ^ attempt * 2000) :: rest.delays⟩

/-- callGradioAPI of src/services/VirtualTryOnService.js: on failure retry
while attempt < retryAttempts and the message does not contain
'Gradio_Prediction_Timeout', sleeping 2^attempt * 2000 ms first; otherwise
translate and rethrow.  Returns the outcome, the number of the attempt
that settled it, and the backoff delays slept. -/
def callGradioAPI (cfg : SvcCfg) (oracle : Nat → AttemptRes) (attempt : Nat) : CallOut :=
  callAux oracle (cfg.retryAttempts - attempt) attempt

/-- Oracle environment for one request through the service's processImage. -/
structure SvcEnv where
  writePerson : Except Str Unit
  writeCloth : Except Str Unit
  cfg : SvcCfg
  attempts : Nat → AttemptRes
  unlinkPersonOk : Bool
  unlinkClothOk : Bool

/-- The try block of processImage: its own required-fields check, staging
of both images via base64ToTempFile (which rethrows write errors), then
callGradioAPI starting at attempt 1; predicts records the number of the
attempt that settled the call. -/
def svcBody (wp wc : Except Str Unit) (cfg : SvcCfg) (att : Nat → AttemptRes)
    (person garment : Str) : BodyOut :=
  if person.isEmpty || garment.isEmpty then
    ⟨.error (strL "Both personImageBase64 and garmentImageBase64 are required"),
     .absent, .absent, 0⟩
  else
    match wp with
    | .error e => ⟨.error e, .absent, .absent, 0⟩
    | .ok _ =>
    match wc with
    | .error e => ⟨.error e, .created, .absent, 0⟩
    | .ok _ =>
      let c := callGradioAPI cfg att 1
      match c.result with
      | .ok bytes => ⟨.ok (b64Encode bytes), .created, .created, c.lastAttempt⟩
      | .error e => ⟨.error e, .created, .created, c.lastAttempt⟩

/-- processImage end to end; its finally block runs cleanupTempFile per
file, each with its own try/catch that only logs a warning. -/
def svcRun (env : SvcEnv) (p g : Str) : RunOut :=
  let b := svcBody env.writePerson env.writeCloth env.cfg env.attempts p g
  let pp := soloCleanup env.unlinkPersonOk b.person
  let cc := soloCleanup env.unlinkClothOk b.cloth
  ⟨b.result, pp.1, cc.1, pp.2 + cc.2, b.predicts⟩

/-- The public HTTP response shape: status code plus the JSON body fields
used by the various handlers (absent fields are none). -/
structure Resp where
  code : Nat
  status : Str
  message : Option Str
  errorType : Option Str
  result : Option Str
  errorRaw : Option Str
deriving DecidableEq

/-- A handler run: the response plus the observable request trace. -/
structure HOut where
  resp : Resp
  person : FState
  cloth : FState
  warns : Nat
  predicts : Nat
deriving DecidableEq

/-- app.post('/api/vton/process') in src/server.js: require truthy
userImage and clothImage, run processVirtualTryOn, answer 200 on success
and a classified error otherwise (raw message echoed in the error field). -/
def serverHandler (userImage clothImage : Option Str) (env : CoreEnv) : HOut :=
  if !(truthyOpt userImage && truthyOpt clothImage) then
    ⟨⟨400, strL "error",
      some (strL "Both userImage and clothImage are required (base64 strings)"),
      none, none, none⟩, .absent, .absent, 0, 0⟩
  else
    let r := coreRun serverMsgs env
    match r.result with
    | .ok rb64 =>
      ⟨⟨200, strL "success", none, none, some rb64, none⟩,
       r.person, r.cloth, r.warns, r.predicts⟩
    | .error m =>
      let c := serverClassify m
      ⟨⟨c.1, strL "error", some c.2.1, some c.2.2, none, some m⟩,
       r.person, r.cloth, r.warns, r.predicts⟩

/-- The POST branch of the default handler in src/api/process.js (its
error body has no raw-error field). -/
def processHandler (userImage clothImage : Option Str) (env : CoreEnv) : HOut :=
  if !(truthyOpt userImage && truthyOpt clothImage) then
    ⟨⟨400, strL "error",
      some (strL "Both userImage and clothImage are required"),
      none, none, none⟩, .absent, .absent, 0, 0⟩
  else
    let r := coreRun processMsgs env
    match r.result with
    | .ok rb64 =>
      ⟨⟨200, strL "success", none, none, some rb64, none⟩,
       r.person, r.cloth, r.warns, r.predicts⟩
    | .error m =>
      let c := processClassify m
      ⟨⟨c.1, strL "error", some c.2.1, some c.2.2, none, none⟩,
       r.person, r.cloth, r.warns, r.predicts⟩

/-- The POST branch of the default handler in src/api/vton-process.js. -/
def vtonHandler (userImage clothImage : Option Str) (env : CoreEnv) : HOut :=
  if !(truthyOpt userImage && truthyOpt clothImage) then
    ⟨⟨400, strL "error",
      some (strL "Both userImage and clothImage are required"),
      none, none, none⟩, .absent, .absent, 0, 0⟩
  else
    let r := vtonRun env
    match r.result with
    | .ok rb64 =>
      ⟨⟨200, strL "success", none, none, some rb64, none⟩,
       r.person, r.cloth, r.warns, r.predicts⟩
    | .error m =>
      let c := vtonClassify m
      ⟨⟨c.1, strL "error", some c.2.1, some c.2.2, none, some m⟩,
       r.person, r.cloth, r.warns, r.predicts⟩

/-- router.post('/process') in src/routes/virtualTryOn.js: require both
base64 fields, reject payloads shorter than 100 characters, then call the
service; errors are classified without a quota category and echoed as
errorDetails. -/
def routeHandler (personImageBase64 garmentImageBase64 : Option Str) (env : SvcEnv) : HOut :=
  if !(truthyOpt personImageBase64 && truthyOpt garmentImageBase64) then
    ⟨⟨400, strL "error",
      some (strL "Both personImageBase64 (Your Photo) and garmentImageBase64 (Cloth Photo) are required."),
      none, none, none⟩, .absent, .absent, 0, 0⟩
  else
    let p := personImageBase64.getD []
    let g := garmentImageBase64.getD []
    if p.length < 100 || g.length < 100 then
      ⟨⟨400, strL "error",
        some (strL "One or both image files are invalid or too small to process."),
        none, none, none⟩, .absent, .absent, 0, 0⟩
    else
      let r := svcRun env p g
      match r.result with
      | .ok rb64 =>
        ⟨⟨200, strL "success", none, none, some rb64, none⟩,
         r.person, r.cloth, r.warns, r.predicts⟩
      | .error m =>
        let c := routeClassify m
        ⟨⟨c.1, strL "error", some c.2, none, none, some m⟩,
         r.person, r.cloth, r.warns, r.predicts⟩

/-
Concurrency model for the lazy remote-client accessors.  The JS event loop
runs the code between two awaits atomically, so each accessor is a sequence
of atomic steps: the synchronous entry block of getGradioClient (checks the
caches and possibly starts Client.connect) and the settlement of a pending
connect.  A schedule is a list of such events; handles and error values are
numbers.
-/

/-- Progress of one caller through a client accessor. -/
inductive CPhase
  | idle
  | waiting
  | done (r : Except Nat Nat)
deriving DecidableEq

/-- Resolution of an awaiting caller. -/
def resolveC (p : CPhase) (r : Except Nat Nat) : CPhase :=
  match p with
  | .waiting => .done r
  | _ => p

/-- Module state of src/api/vton-process.js: the cached gradioClient, the
clientInitPromise (pending, or already resolved with a value), the number
of Client.connect calls made, and two callers. -/
structure VWorld where
  client : Option Nat
  promisePending : Bool
  promiseDone : Option (Except Nat Nat)
  attempts : Nat
  c0 : CPhase
  c1 : CPhase
deriving DecidableEq

def vGetC (w : VWorld) (i : Fin 2) : CPhase :=
  if i = 0 then w.c0 else w.c1

def vSetC (w : VWorld) (i : Fin 2) (p : CPhase) : VWorld :=
  if i = 0 then { w with c0 := p } else { w with c1 := p }

inductive VEv
  | start (i : Fin 2)
  | settle (o : Except Nat Nat)
deriving DecidableEq

/-- One atomic step of the vton-process accessor: on start, a caller
returns the cached client, else joins the in-flight promise, else joins a
resolved promise, else creates the promise and performs the single connect
attempt; on settlement, success caches the client while failure clears
both gradioClient and clientInitPromise, and every joined caller receives
the same outcome. -/
def vtonAccStep (w : VWorld) (e : VEv) : VWorld :=
  match e with
  | .start i =>
    if vGetC w i ≠ CPhase.idle then w
    else
      match w.client with
      | some h => vSetC w i (.done (.ok h))
      | none =>
        if w.promisePending then vSetC w i .waiting
        else
          match w.promiseDone with
          | some r => vSetC w i (.done r)
          | none =>
            { vSetC w i .waiting with
              promisePending := true, attempts := w.attempts + 1 }
  | .settle o =>
    if !w.promisePending then w
    else
      match o with
      | .ok h =>
        { w with promisePending := false, promiseDone := some (.ok h),
                 client := some h,
                 c0 := resolveC w.c0 (.ok h), c1 := resolveC w.c1 (.ok h) }
      | .error e =>
        { w with promisePending := false, promiseDone := none, client := none,
                 c0 := resolveC w.c0 (.error e), c1 := resolveC w.c1 (.error e) }

def vWorld0 : VWorld := ⟨none, false, none, 0, .idle, .idle⟩

def runVtonAcc (sched : List VEv) : VWorld := sched.foldl vtonAccStep vWorld0

/-- Module state of the src/server.js (and src/api/process.js) accessor:
no in-flight promise guard, so each caller that sees a null gradioClient
starts its own connect, tracked per caller. -/
structure SWorld where
  client : Option Nat
  pending0 : Bool
  pending1 : Bool
  attempts : Nat
  c0 : CPhase
  c1 : CPhase
deriving DecidableEq

def sGetC (w : SWorld) (i : Fin 2) : CPhase :=
  if i = 0 then w.c0 else w.c1

def sSetC (w : SWorld) (i : Fin 2) (p : CPhase) : SWorld :=
  if i = 0 then { w with c0 := p } else { w with c1 := p }

def sSetPend (w : SWorld) (i : Fin 2) (b : Bool) : SWorld :=
  if i = 0 then { w with pending0 := b } else { w with pending1 := b }

def sGetPend (w : SWorld) (i : Fin 2) : Bool :=
  if i = 0 then w.pending0 else w.pending1

inductive SEv
  | start (i : Fin 2)
  | settleOwn (i : Fin 2) (o : Except Nat Nat)
deriving DecidableEq

/-- One atomic step of the server.js accessor: getGradioClient checks
`if (!gradioClient)` and, when null, awaits createClient — so a start step
taken while the client is still null always begins a fresh connect
attempt; the assignment to gradioClient only happens when that caller's
own connect settles. -/
def serverAccStep (w : SWorld) (e : SEv) : SWorld :=
  match e with
  | .start i =>
    if sGetC w i ≠ CPhase.idle then w
    else
      match w.client with
      | some h => sSetC w i (.done (.ok h))
      | none =>
        { sSetPend (sSetC w i .waiting) i true with attempts := w.attempts + 1 }
  | .settleOwn i o =>
    if sGetPend w i then
      match o with
      | .ok h => { sSetPend (sSetC w i (.done (.ok h))) i false with client := some h }
      | .error e => sSetPend (sSetC w i (.done (.error e))) i false
    else w

def sWorld0 : SWorld := ⟨none, false, false, 0, .idle, .idle⟩

def runServerAcc (sched : List SEv) : SWorld := sched.foldl serverAccStep sWorld0

/-
Helper lemmas shared by the claim theorems.
-/

lemma lower429 : lowerStr (strL "429") = strL "429" := by decide

lemma lowerQuota : lowerStr (strL "quota") = strL "quota" := by decide

lemma isQuotaErrorServer_of (m : Str)
    (h : containsCI m (strL "429") = true ∨ containsCI m (strL "quota") = true) :
    isQuotaErrorServer m = true := by
  unfold isQuotaErrorServer
  rcases h with h | h
  · unfold containsCI at h
    rw [lower429] at h
    exact List.any_eq_true.mpr ⟨strL "429", by decide, h⟩
  · unfold containsCI at h
    rw [lowerQuota] at h
    exact List.any_eq_true.mpr ⟨strL "quota", by decide, h⟩

lemma isQuotaErrorProcess_of (m : Str)
    (h : containsCI m (strL "429") = true ∨ containsCI m (strL "quota") = true) :
    isQuotaErrorProcess m = true := by
  unfold isQuotaErrorProcess
  rcases h with h | h
  · unfold containsCI at h
    rw [lower429] at h
    exact List.any_eq_true.mpr ⟨strL "429", by decide, h⟩
  · unfold containsCI at h
    rw [lowerQuota] at h
    exact List.any_eq_true.mpr ⟨strL "quota", by decide, h⟩

lemma isQuotaErrorVton_of (m : Str)
    (h : containsCI m (strL "429") = true ∨ containsCI m (strL "quota") = true) :
    isQuotaErrorVton m = true := by
  unfold isQuotaErrorVton
  rcases h with h | h
  · exact List.any_eq_true.mpr ⟨strL "429", by decide, h⟩
  · exact List.any_eq_true.mpr ⟨strL "quota", by decide, h⟩

/-- C2 (amended): for every remote failure whose message contains "429" or
"quota" case-insensitively, the src/server.js and src/api/process.js entry
points answer 429 with errorType quota_limit unconditionally; the
src/api/vton-process.js entry point does so provided the message does not
also hit its earlier HF_TOKEN or Processing_Timeout branches.  (The
routes/virtualTryOn.js entry point has no quota category at all — see the
counterexample.) -/
theorem spec_c2_quota_classification (m : Str)
    (h : containsCI m (strL "429") = true ∨ containsCI m (strL "quota") = true) :
    ((serverClassify m).1 = 429 ∧ (serverClassify m).2.2 = strL "quota_limit")
    ∧ ((processClassify m).1 = 429 ∧ (processClassify m).2.2 = strL "quota_limit")
    ∧ (hasSub m (strL "HF_TOKEN") = false → hasSub m (strL "Processing_Timeout") = false →
       (vtonClassify m).1 = 429 ∧ (vtonClassify m).2.2 = strL "quota_limit") := by
  refine ⟨?_, ?_, ?_⟩
  · have hs := isQuotaErrorServer_of m h
    simp [serverClassify, hs]
  · have hp := isQuotaErrorProcess_of m h
    simp [processClassify, hp]
  · intro h1 h2
    have hv := isQuotaErrorVton_of m h
    simp [vtonClassify, h1, h2, hv]

theorem spec_c2_quota_classification_witness :
    (serverClassify (strL "exceeded quota today")).1 = 429
    ∧ (processClassify (strL "exceeded quota today")).1 = 429
    ∧ (vtonClassify (strL "exceeded quota today")).1 = 429 :=
  let h := spec_c2_quota_classification (strL "exceeded quota today") (Or.inr (by decide))
  ⟨h.1.1, h.2.1.1, (h.2.2 (by decide) (by decide)).1⟩

/-- C2 counterexample: the claim quantifies over every processing entry
point, but the routes/virtualTryOn.js entry point maps a remote failure
whose message contains "quota" to HTTP 500 with no errorType, not to 429
with quota_limit: end to end, a request whose remote call keeps failing
with 'ZeroGPU quota exceeded' is answered 500 there. -/
theorem spec_c2_route_no_quota_counterexample :
    containsCI (strL "ZeroGPU quota exceeded") (strL "quota") = true
    ∧ (routeHandler (some (List.replicate 100 'a')) (some (List.replicate 100 'b'))
        ⟨.ok (), .ok (), defaultSvcCfg,
         fun _ => .fail (strL "ZeroGPU quota exceeded"), true, true⟩).resp.code = 500
    ∧ (routeHandler (some (List.replicate 100 'a')) (some (List.replicate 100 'b'))
        ⟨.ok (), .ok (), defaultSvcCfg,
         fun _ => .fail (strL "ZeroGPU quota exceeded"), true, true⟩).resp.errorType = none := by
  decide

/-- Environment of a request whose remote prediction never settles within
the window: the timer wins the race; everything before it succeeds. -/
def timerEnv : CoreEnv :=
  ⟨.ok (), .ok (), .ok (), RaceW.timer, .ok ⟨[]⟩,
   fun _ => .error [], fun _ => .error [], true, true⟩

/-- C3 (code bug): when the timer fires first the timeout error is raised
and, through src/server.js and src/api/vton-process.js, the response is
504, and the service never retries a timeout — but the src/api/process.js
entry point answers 429 with errorType quota_limit for the very same
situation: its translated timeout message ("...may be overloaded or
asleep.") contains 'overload', which its quota keyword list matches before
its own 'timed out' → 504 branch can run.  This contradicts the claim (and
the intent visible in process.js's dead 504 branch). -/
theorem spec_c3_timeout_misclassified :
    (processHandler (some (strL "p")) (some (strL "c")) timerEnv).resp.code = 429
    ∧ (processHandler (some (strL "p")) (some (strL "c")) timerEnv).resp.errorType
        = some (strL "quota_limit")
    ∧ (serverHandler (some (strL "p")) (some (strL "c")) timerEnv).resp.code = 504
    ∧ (vtonHandler (some (strL "p")) (some (strL "c")) timerEnv).resp.code = 504
    ∧ (callGradioAPI defaultSvcCfg (fun _ => AttemptRes.fail svcTimeoutToken) 1).lastAttempt = 1
    ∧ (routeHandler (some (List.replicate 100 'a')) (some (List.replicate 100 'a'))
        ⟨.ok (), .ok (), defaultSvcCfg,
         fun _ => AttemptRes.fail svcTimeoutToken, true, true⟩).resp.code = 504 := by
  decide

/-- Schedules for two callers hitting an accessor before any client
exists, both starting before the single connect settles. -/
def vtonSched (ord : Bool) (o : Except Nat Nat) : List VEv :=
  if ord then [VEv.start 0, VEv.start 1, VEv.settle o]
  else [VEv.start 1, VEv.start 0, VEv.settle o]

/-- C4 (amended): single-flight initialization holds for the
src/api/vton-process.js accessor, which guards with clientInitPromise: in
either arrival order, two callers arriving before the client exists cause
exactly one connect attempt, both observe the same outcome, a success is
cached as the shared handle, and a failure clears both gradioClient and
clientInitPromise back to the initial state so a later call can retry.
The src/server.js and src/api/process.js accessors have no such guard —
see the counterexample. -/
theorem spec_c4_single_flight_vton (ord : Bool) (o : Except Nat Nat) :
    (runVtonAcc (vtonSched ord o)).attempts = 1
    ∧ (runVtonAcc (vtonSched ord o)).c0 = CPhase.done o
    ∧ (runVtonAcc (vtonSched ord o)).c1 = CPhase.done o
    ∧ (runVtonAcc (vtonSched ord o)).client = o.toOption
    ∧ (runVtonAcc (vtonSched ord o)).promisePending = false
    ∧ (∀ e, o = Except.error e →
        (runVtonAcc (vtonSched ord o)).client = none
        ∧ (runVtonAcc (vtonSched ord o)).promiseDone = none) := by
  cases ord <;> cases o <;>
    exact ⟨rfl, rfl, rfl, rfl, rfl, by intro e he; first | exact ⟨rfl, rfl⟩ | simp_all⟩

theorem spec_c4_single_flight_vton_witness :
    (runVtonAcc (vtonSched true (Except.error 3))).attempts = 1
    ∧ (runVtonAcc (vtonSched true (Except.error 3))).client = none
    ∧ (runVtonAcc (vtonSched true (Except.error 3))).promiseDone = none :=
  let h := spec_c4_single_flight_vton true (Except.error 3)
  ⟨h.1, (h.2.2.2.2.2 3 rfl).1, (h.2.2.2.2.2 3 rfl).2⟩

/-- C4 counterexample: the claim asserts exactly one underlying connection
attempt for every accessor, but the src/server.js (and src/api/process.js)
getGradioClient has no initialization-in-progress guard: when a second
caller checks the still-null gradioClient before the first connect
settles, a second connect attempt starts, and the two callers can end up
with different handles. -/
theorem spec_c4_server_double_init_counterexample :
    (runServerAcc [SEv.start 0, SEv.start 1,
      SEv.settleOwn 0 (Except.ok 7), SEv.settleOwn 1 (Except.ok 8)]).attempts = 2
    ∧ (runServerAcc [SEv.start 0, SEv.start 1,
        SEv.settleOwn 0 (Except.ok 7), SEv.settleOwn 1 (Except.ok 8)]).c0
        = CPhase.done (Except.ok 7)
    ∧ (runServerAcc [SEv.start 0, SEv.start 1,
        SEv.settleOwn 0 (Except.ok 7), SEv.settleOwn 1 (Except.ok 8)]).c1
        = CPhase.done (Except.ok 8) := by
  decide

/-- The backoff schedule of callGradioAPI: the delay slept before retrying
after failed attempt a is 2^a * 2000 ms, so consecutive delays double and
the base coefficient is 2000 ms. -/
def delayChain : Nat → List Nat → Bool
  | _, [] => true
  | a, d :: ds => (d == 2 ^ a * 2000) && delayChain (a + 1) ds

lemma callAux_delays (oracle : Nat → AttemptRes) :
    ∀ remaining attempt, delayChain attempt (callAux oracle remaining attempt).delays = true := by
  intro remaining
  induction remaining with
  | zero =>
    intro attempt
    unfold callAux
    cases oracle attempt <;> simp [delayChain]
  | succ r ih =>
    intro attempt
    unfold callAux
    cases h : oracle attempt with
    | ok b => simp [delayChain]
    | fail m =>
      by_cases ht : hasSub m svcTimeoutToken = true
      · simp [ht, delayChain]
      · simp only [Bool.not_eq_true] at ht
        simp [ht, delayChain, ih (attempt + 1)]

lemma callAux_lastAttempt_le (oracle : Nat → AttemptRes) :
    ∀ remaining attempt, (callAux oracle remaining attempt).lastAttempt ≤ attempt + remaining := by
  intro remaining
  induction remaining with
  | zero =>
    intro attempt
    unfold callAux
    cases oracle attempt <;> simp
  | succ r ih =>
    intro attempt
    unfold callAux
    cases h : oracle attempt with
    | ok b => simp
    | fail m =>
      by_cases ht : hasSub m svcTimeoutToken = true
      · simp [ht]
      · simp only [Bool.not_eq_true] at ht
        simp only [ht, Bool.false_eq_true, if_false]
        have := ih (attempt + 1)
        omega

lemma callAux_lastAttempt_ge (oracle : Nat → AttemptRes) :
    ∀ remaining attempt, attempt ≤ (callAux oracle remaining attempt).lastAttempt := by
  intro remaining
  induction remaining with
  | zero =>
    intro attempt
    unfold callAux
    cases oracle attempt <;> simp
  | succ r ih =>
    intro attempt
    unfold callAux
    cases h : oracle attempt with
    | ok b => simp
    | fail m =>
      by_cases ht : hasSub m svcTimeoutToken = true
      · simp [ht]
      · simp only [Bool.not_eq_true] at ht
        simp only [ht, Bool.false_eq_true, if_false]
        have := ih (attempt + 1)
        omega

/-- C5: the service's callGradioAPI retries a failed invocation while the
attempt number is below the configured count (default 2), sleeping
exponential backoff delays of 2000 ms times 2^attempt (so 4 s after the
first attempt, doubling per attempt), never retries a failure whose
message marks a timeout (raising the translated timeout text instead),
never exceeds the configured attempt count starting from attempt 1, and
after exhausting the attempts surfaces the (translated) last error. -/
theorem spec_c5_retry_policy (cfg : SvcCfg) (oracle : Nat → AttemptRes)
    (a : Nat) (m m2 : Str) (bytes : List Nat) :
    delayChain a (callGradioAPI cfg oracle a).delays = true
    ∧ (oracle a = AttemptRes.ok bytes →
        callGradioAPI cfg oracle a = ⟨.ok bytes, a, []⟩)
    ∧ (oracle a = AttemptRes.fail m → hasSub m svcTimeoutToken = true →
        callGradioAPI cfg oracle a =
          ⟨.error (strL "Processing timed out. The AI service may be overloaded or asleep."),
           a, []⟩)
    ∧ (1 ≤ cfg.retryAttempts → (callGradioAPI cfg oracle 1).lastAttempt ≤ cfg.retryAttempts)
    ∧ (oracle 1 = AttemptRes.fail m → hasSub m svcTimeoutToken = false →
        oracle 2 = AttemptRes.fail m2 →
        callGradioAPI defaultSvcCfg oracle 1 = ⟨.error (translateSvc m2), 2, [4000]⟩) := by
  refine ⟨callAux_delays oracle _ a, ?_, ?_, ?_, ?_⟩
  · intro h
    unfold callGradioAPI callAux
    rw [h]
  · intro h ht
    unfold callGradioAPI callAux
    rw [h]
    cases hr : cfg.retryAttempts - a <;> simp [ht, translateSvc]
  · intro h1
    have := callAux_lastAttempt_le oracle (cfg.retryAttempts - 1) 1
    unfold callGradioAPI
    omega
  · intro h1 ht h2
    have hr : defaultSvcCfg.retryAttempts - 1 = 1 := rfl
    unfold callGradioAPI
    rw [hr]
    unfold callAux
    rw [h1]
    simp only [ht, Bool.false_eq_true, if_false]
    unfold callAux
    rw [h2]
    norm_num

theorem spec_c5_retry_policy_witness :
    callGradioAPI defaultSvcCfg
        (fun n => if n = 1 then AttemptRes.fail (strL "boom1")
                  else AttemptRes.fail (strL "boom2")) 1
      = ⟨.error (translateSvc (strL "boom2")), 2, [4000]⟩
    ∧ callGradioAPI defaultSvcCfg
        (fun _ => AttemptRes.fail (strL "x Gradio_Prediction_Timeout x")) 1
      = ⟨.error (strL "Processing timed out. The AI service may be overloaded or asleep."),
         1, []⟩ :=
  ⟨(spec_c5_retry_policy defaultSvcCfg
      (fun n => if n = 1 then AttemptRes.fail (strL "boom1")
                else AttemptRes.fail (strL "boom2")) 1
      (strL "boom1") (strL "boom2") []).2.2.2.2 rfl (by decide) rfl,
   (spec_c5_retry_policy defaultSvcCfg
      (fun _ => AttemptRes.fail (strL "x Gradio_Prediction_Timeout x")) 1
      (strL "x Gradio_Prediction_Timeout x") (strL "boom2") []).2.2.1 rfl (by decide)⟩

def svcInvalidMsg : Str := strL "Could not extract image URL from Gradio response"

lemma coreBody_predicts (ms : CoreMsgs) (wp wc ci : Except Str Unit) (rw : RaceW)
    (po : Except Str GResult) (fr rr : Str → Except Str (List Nat)) :
    (coreBody ms wp wc ci rw po fr rr).predicts ≤ 1 := by
  unfold coreBody
  (repeat' split) <;> simp

/-- C6 (amended): the extractors used by src/server.js, src/api/process.js
and src/api/vton-process.js inspect the first output entry and accept, in
order, an object with a truthy name field, a plain (non-empty) string, and
an object with a truthy url field, yielding no extraction otherwise — in
which case those pipelines raise their invalid-result error; those
pipelines call predict at most once, so nothing is ever retried there.
The standalone service's extractor differs from the claim: it takes an
object's url then path field and never reads name, and the service's
invalid-result failure IS retried (the retry guard exempts only timeouts),
advancing to the next attempt whenever attempts remain. -/
theorem spec_c6_extractor_order (nm url path : Option Str) (s : Str)
    (rest : List GItem) (env : CoreEnv) (ms : CoreMsgs)
    (cfg : SvcCfg) (oracle : Nat → AttemptRes) (a : Nat) :
    (truthyOpt nm = true → extractOutput ⟨GItem.obj nm url path :: rest⟩ = nm)
    ∧ (isTruthyS s = true → extractOutput ⟨GItem.str s :: rest⟩ = some s)
    ∧ (truthyOpt nm = false → truthyOpt url = true →
        extractOutput ⟨GItem.obj nm url path :: rest⟩ = url)
    ∧ extractOutput ⟨[]⟩ = none
    ∧ (∀ r : GResult, env.writePerson = .ok () → env.writeCloth = .ok () →
        env.clientInit = .ok () → env.raceWinner = RaceW.pred →
        env.predictOutcome = .ok r → extractOutput r = none →
        (coreRun ms env).result = .error (translateCore ms ms.invalidResult))
    ∧ (coreRun ms env).predicts ≤ 1
    ∧ serviceExtract ⟨GItem.obj nm none none :: rest⟩ = none
    ∧ (truthyOpt url = true → serviceExtract ⟨GItem.obj nm url path :: rest⟩ = url)
    ∧ (a < cfg.retryAttempts → oracle a = AttemptRes.fail svcInvalidMsg →
        a + 1 ≤ (callGradioAPI cfg oracle a).lastAttempt) := by
  refine ⟨?_, ?_, ?_, rfl, ?_, ?_, ?_, ?_, ?_⟩
  · intro h
    cases nm with
    | none => simp [truthyOpt] at h
    | some s' =>
      simp only [truthyOpt] at h
      simp [extractOutput, truthyOpt, h]
  · intro h
    simp [extractOutput, h]
  · intro h1 h2
    cases url with
    | none => simp [truthyOpt] at h2
    | some u =>
      simp only [truthyOpt] at h2
      simp only [truthyOpt] at h1
      simp [extractOutput, truthyOpt, h1, h2]
  · intro r h1 h2 h3 h4 h5 h6
    simp [coreRun, coreBody, h1, h2, h3, h4, h5, h6]
  · show (coreRun ms env).predicts ≤ 1
    simpa [coreRun] using coreBody_predicts ms env.writePerson env.writeCloth
      env.clientInit env.raceWinner env.predictOutcome env.fetchRes env.readFileRes
  · simp [serviceExtract, truthyOpt]
  · intro h
    cases url with
    | none => simp [truthyOpt] at h
    | some u =>
      simp only [truthyOpt] at h
      simp [serviceExtract, truthyOpt, h]
  · intro hlt hor
    unfold callGradioAPI
    cases hr : cfg.retryAttempts - a with
    | zero => omega
    | succ r =>
      unfold callAux
      rw [hor]
      have hnt : hasSub svcInvalidMsg svcTimeoutToken = false := by decide
      simp only [hnt, Bool.false_eq_true, if_false]
      exact callAux_lastAttempt_ge oracle r (a + 1)

theorem spec_c6_extractor_order_witness :
    extractOutput ⟨[GItem.obj (some (strL "f.png")) none none]⟩ = some (strL "f.png")
    ∧ extractOutput ⟨[GItem.str (strL "http://h/x.png")]⟩ = some (strL "http://h/x.png")
    ∧ serviceExtract ⟨[GItem.obj (some (strL "f.png")) (some (strL "u.png")) none]⟩
        = some (strL "u.png")
    ∧ 1 + 1 ≤ (callGradioAPI defaultSvcCfg (fun _ => AttemptRes.fail svcInvalidMsg) 1).lastAttempt :=
  let h1 := spec_c6_extractor_order (some (strL "f.png")) none none (strL "s") []
    timerEnv serverMsgs defaultSvcCfg (fun _ => AttemptRes.fail svcInvalidMsg) 1
  let h2 := spec_c6_extractor_order (some (strL "f.png")) (some (strL "u.png")) none
    (strL "http://h/x.png") [] timerEnv serverMsgs defaultSvcCfg
    (fun _ => AttemptRes.fail svcInvalidMsg) 1
  ⟨h1.1 (by decide), h2.2.1 (by decide), h2.2.2.2.2.2.2.2.1 (by decide),
   h1.2.2.2.2.2.2.2.2 (by decide) rfl⟩

/-- C6 counterexample: the claim's ordered shapes (name field first) and
no-retry statement fail on the standalone service: its extractor yields
nothing for an object that only has a name field (the other variants
accept it), and its invalid-result failure is retried — with attempts
remaining, the call advances to attempt 2 instead of stopping. -/
theorem spec_c6_service_extractor_counterexample :
    serviceExtract ⟨[GItem.obj (some (strL "out.png")) none none]⟩ = none
    ∧ extractOutput ⟨[GItem.obj (some (strL "out.png")) none none]⟩ = some (strL "out.png")
    ∧ (callGradioAPI defaultSvcCfg (fun _ => AttemptRes.fail svcInvalidMsg) 1).lastAttempt = 2 := by
  decide

lemma coreCleanup_ok (p c : FState) :
    (coreCleanup true true p c).1 ≠ FState.created
    ∧ (coreCleanup true true p c).2.1 ≠ FState.created
    ∧ (coreCleanup true true p c).2.2 = 0 := by
  cases p <;> cases c <;> decide

lemma coreCleanup_warn (up uc : Bool) (p c : FState)
    (h : (coreCleanup up uc p c).1 = FState.created
      ∨ (coreCleanup up uc p c).2.1 = FState.created) :
    1 ≤ (coreCleanup up uc p c).2.2 := by
  revert h
  cases up <;> cases uc <;> cases p <;> cases c <;> decide

lemma soloCleanup_ok (f : FState) :
    (soloCleanup true f).1 ≠ FState.created ∧ (soloCleanup true f).2 = 0 := by
  cases f <;> decide

lemma soloCleanup_warn (ok : Bool) (f : FState)
    (h : (soloCleanup ok f).1 = FState.created) : 1 ≤ (soloCleanup ok f).2 := by
  revert h
  cases ok <;> cases f <;> decide

/-- C1: for every request through processVirtualTryOn (src/server.js and
src/api/process.js, quantified by the message set ms) and through the
service's processImage — including requests where only the person file was
staged before a failure — when the deletions succeed no temp file remains
after the handler returns and nothing is logged; the request's outcome
never depends on the deletion outcomes (a deletion failure is never
propagated); and whenever a temp file does survive, a cleanup warning was
logged. -/
theorem spec_c1_temp_cleanup (ms : CoreMsgs) (env : CoreEnv) (envS : SvcEnv) (p g : Str)
    (h1 : env.unlinkPersonOk = true) (h2 : env.unlinkClothOk = true)
    (h3 : envS.unlinkPersonOk = true) (h4 : envS.unlinkClothOk = true) :
    ((coreRun ms env).person ≠ FState.created ∧ (coreRun ms env).cloth ≠ FState.created
      ∧ (coreRun ms env).warns = 0)
    ∧ ((svcRun envS p g).person ≠ FState.created ∧ (svcRun envS p g).cloth ≠ FState.created
      ∧ (svcRun envS p g).warns = 0)
    ∧ (∀ a b a2 b2,
        (coreRun ms { env with unlinkPersonOk := a, unlinkClothOk := b }).result
          = (coreRun ms { env with unlinkPersonOk := a2, unlinkClothOk := b2 }).result)
    ∧ (∀ a b a2 b2,
        (svcRun { envS with unlinkPersonOk := a, unlinkClothOk := b } p g).result
          = (svcRun { envS with unlinkPersonOk := a2, unlinkClothOk := b2 } p g).result)
    ∧ (∀ a b,
        ((coreRun ms { env with unlinkPersonOk := a, unlinkClothOk := b }).person = FState.created
          ∨ (coreRun ms { env with unlinkPersonOk := a, unlinkClothOk := b }).cloth = FState.created)
        → 1 ≤ (coreRun ms { env with unlinkPersonOk := a, unlinkClothOk := b }).warns)
    ∧ (∀ a b,
        ((svcRun { envS with unlinkPersonOk := a, unlinkClothOk := b } p g).person = FState.created
          ∨ (svcRun { envS with unlinkPersonOk := a, unlinkClothOk := b } p g).cloth = FState.created)
        → 1 ≤ (svcRun { envS with unlinkPersonOk := a, unlinkClothOk := b } p g).warns) := by
  refine ⟨?_, ?_, ?_, ?_, ?_, ?_⟩
  · simp only [coreRun, h1, h2]
    exact coreCleanup_ok _ _
  · simp only [svcRun, h3, h4]
    refine ⟨(soloCleanup_ok _).1, (soloCleanup_ok _).1, ?_⟩
    rw [(soloCleanup_ok _).2, (soloCleanup_ok _).2]
  · intro a b a2 b2
    rcases env with ⟨wp, wc, ci, rw, po, fr, rr, up, uc⟩
    rfl
  · intro a b a2 b2
    rcases envS with ⟨wp, wc, cfg, att, up, uc⟩
    rfl
  · intro a b h
    rcases env with ⟨wp, wc, ci, rw, po, fr, rr, up, uc⟩
    simp only [coreRun] at h ⊢
    exact coreCleanup_warn a b _ _ h
  · intro a b h
    rcases envS with ⟨wp, wc, cfg, att, up, uc⟩
    simp only [svcRun] at h ⊢
    rcases h with h | h
    · have := soloCleanup_warn a _ h
      omega
    · have := soloCleanup_warn b _ h
      omega

/-- A request whose garment staging fails after the person file was
created: the cleanup case the claim singles out. -/
def c1Env : CoreEnv :=
  ⟨.ok (), .error (strL "ENOSPC: no space left on device"), .ok (), RaceW.pred,
   .ok ⟨[]⟩, fun _ => .error [], fun _ => .error [], true, true⟩

def c1SvcEnv : SvcEnv :=
  ⟨.ok (), .ok (), defaultSvcCfg, fun _ => AttemptRes.ok [5, 6], true, true⟩

theorem spec_c1_temp_cleanup_witness :
    (coreRun processMsgs c1Env).person ≠ FState.created
    ∧ (coreRun processMsgs c1Env).cloth ≠ FState.created
    ∧ (coreRun processMsgs c1Env).warns = 0
    ∧ (svcRun c1SvcEnv (strL "pp") (strL "gg")).person ≠ FState.created :=
  let h := spec_c1_temp_cleanup processMsgs c1Env c1SvcEnv (strL "pp") (strL "gg")
    rfl rfl rfl rfl
  ⟨h.1.1, h.1.2.1, h.1.2.2, h.2.1.1⟩

/-- C7: a request body in which either image field is missing or empty is
answered 400 by every entry point, with no temp file created and no remote
invocation (predict is never called). -/
theorem spec_c7_missing_fields (ui ci : Option Str) (env : CoreEnv) (envS : SvcEnv)
    (h : truthyOpt ui = false ∨ truthyOpt ci = false) :
    ((serverHandler ui ci env).resp.code = 400
      ∧ (serverHandler ui ci env).person = FState.absent
      ∧ (serverHandler ui ci env).cloth = FState.absent
      ∧ (serverHandler ui ci env).predicts = 0)
    ∧ ((processHandler ui ci env).resp.code = 400
      ∧ (processHandler ui ci env).person = FState.absent
      ∧ (processHandler ui ci env).cloth = FState.absent
      ∧ (processHandler ui ci env).predicts = 0)
    ∧ ((vtonHandler ui ci env).resp.code = 400
      ∧ (vtonHandler ui ci env).person = FState.absent
      ∧ (vtonHandler ui ci env).cloth = FState.absent
      ∧ (vtonHandler ui ci env).predicts = 0)
    ∧ ((routeHandler ui ci envS).resp.code = 400
      ∧ (routeHandler ui ci envS).person = FState.absent
      ∧ (routeHandler ui ci envS).cloth = FState.absent
      ∧ (routeHandler ui ci envS).predicts = 0) := by
  have hb : (truthyOpt ui && truthyOpt ci) = false := by
    rcases h with h | h <;> simp [h]
  refine ⟨?_, ?_, ?_, ?_⟩
  · simp [serverHandler, hb]
  · simp [processHandler, hb]
  · simp [vtonHandler, hb]
  · simp [routeHandler, hb]

theorem spec_c7_missing_fields_witness :
    (serverHandler none (some (strL "imagedata")) timerEnv).resp.code = 400
    ∧ (processHandler none (some (strL "imagedata")) timerEnv).person = FState.absent
    ∧ (routeHandler none (some (strL "imagedata")) c1SvcEnv).predicts = 0 :=
  let h := spec_c7_missing_fields none (some (strL "imagedata")) timerEnv c1SvcEnv
    (Or.inl rfl)
  ⟨h.1.1, h.2.1.2.1, h.2.2.2.2.2.2⟩

lemma isEmpty_of_truthy {s : Str} (h : isTruthyS s = true) : s.isEmpty = false := by
  cases s with
  | nil => simp [isTruthyS] at h
  | cons c t => rfl

lemma svcBody_person_created (wp wc : Except Str Unit) (cfg : SvcCfg)
    (att : Nat → AttemptRes) (p g : Str)
    (hpe : p.isEmpty = false) (hge : g.isEmpty = false) (hw : wp = Except.ok ()) :
    (svcBody wp wc cfg att p g).person = FState.created := by
  subst hw
  cases wc with
  | error e => simp [svcBody, hpe, hge]
  | ok u =>
    cases u
    simp only [svcBody, hpe, hge, Bool.or_self, Bool.false_eq_true, if_false]
    cases (callGradioAPI cfg att 1).result <;> simp

/-- C8 (amended): the minimum-length validation exists only in the
routes/virtualTryOn.js entry point; there, a request with a payload
shorter than 100 characters (so at the boundary a 99-character payload) is
answered 400 with nothing staged and no remote call, while payloads of 100
or more characters proceed to staging.  The other entry points stage any
non-empty payload with no length check — see the counterexample. -/
theorem spec_c8_route_min_length (p g : Str) (env : SvcEnv)
    (hp : isTruthyS p = true) (hg : isTruthyS g = true) :
    ((p.length < 100 ∨ g.length < 100) →
      (routeHandler (some p) (some g) env).resp.code = 400
      ∧ (routeHandler (some p) (some g) env).person = FState.absent
      ∧ (routeHandler (some p) (some g) env).cloth = FState.absent
      ∧ (routeHandler (some p) (some g) env).predicts = 0)
    ∧ (100 ≤ p.length → 100 ≤ g.length → env.writePerson = Except.ok () →
      (routeHandler (some p) (some g) env).person ≠ FState.absent) := by
  constructor
  · intro hlen
    have hcond : (decide (p.length < 100) || decide (g.length < 100)) = true := by
      rcases hlen with h | h <;> simp [h]
    simp [routeHandler, truthyOpt, hp, hg, hcond]
  · intro hp100 hg100 hw
    have hcond : (decide (p.length < 100) || decide (g.length < 100)) = false := by
      simp
      omega
    have hpc := svcBody_person_created env.writePerson env.writeCloth env.cfg
      env.attempts p g (isEmpty_of_truthy hp) (isEmpty_of_truthy hg) hw
    have hperson : (routeHandler (some p) (some g) env).person
        = (soloCleanup env.unlinkPersonOk
            (svcBody env.writePerson env.writeCloth env.cfg env.attempts p g).person).1 := by
      simp only [routeHandler, truthyOpt, hp, hg, Bool.and_self, Bool.not_true,
        Bool.false_eq_true, if_false, Option.getD_some, hcond, svcRun]
      cases (svcBody env.writePerson env.writeCloth env.cfg env.attempts p g).result <;> rfl
    rw [hperson, hpc]
    cases h : env.unlinkPersonOk <;> simp [soloCleanup]

theorem spec_c8_route_min_length_witness :
    (routeHandler (some (List.replicate 99 'a')) (some (List.replicate 120 'b'))
      c1SvcEnv).resp.code = 400
    ∧ (routeHandler (some (List.replicate 99 'a')) (some (List.replicate 120 'b'))
        c1SvcEnv).person = FState.absent
    ∧ (routeHandler (some (List.replicate 100 'a')) (some (List.replicate 120 'b'))
        c1SvcEnv).person ≠ FState.absent :=
  let h1 := spec_c8_route_min_length (List.replicate 99 'a') (List.replicate 120 'b')
    c1SvcEnv (by decide) (by decide)
  let h2 := spec_c8_route_min_length (List.replicate 100 'a') (List.replicate 120 'b')
    c1SvcEnv (by decide) (by decide)
  ⟨(h1.1 (Or.inl (by decide))).1, (h1.1 (Or.inl (by decide))).2.1,
   h2.2 (by decide) (by decide) rfl⟩

/-- A request environment in which everything succeeds: the prediction
returns a URL entry and the download yields three bytes. -/
def okEnv : CoreEnv :=
  ⟨.ok (), .ok (), .ok (), RaceW.pred,
   .ok ⟨[GItem.str (strL "http://h/out.png")]⟩,
   fun _ => .ok [1, 2, 3], fun _ => .error [], true, true⟩

/-- C8 counterexample: the claim quantifies over every request, but the
src/api/process.js entry point has no minimum-length check: a request
whose payloads are 99 characters long is not answered 400 — it is staged
(the person temp file is created, then deleted) and processed to a 200. -/
theorem spec_c8_process_no_length_check_counterexample :
    (List.replicate 99 'a' : Str).length = 99
    ∧ (processHandler (some (List.replicate 99 'a')) (some (List.replicate 99 'a'))
        okEnv).resp.code = 200
    ∧ ¬ (processHandler (some (List.replicate 99 'a')) (some (List.replicate 99 'a'))
        okEnv).resp.code = 400
    ∧ (processHandler (some (List.replicate 99 'a')) (some (List.replicate 99 'a'))
        okEnv).person = FState.deleted := by
  decide

lemma startsWithHttp_truthy {u : Str} (h : startsWithHttp u = true) :
    isTruthyS u = true := by
  cases u with
  | nil => exact absurd h (by decide)
  | cons c t => rfl

/-- C9: for every pair of truthy image payloads, when the remote call
succeeds with a result URL and the download returns byte list rb, the
src/server.js entry point answers with status "success" and a result field
that is exactly the base64 encoding of rb — and decoding that field gives
back precisely rb (the bytes round-trip unchanged through download, base64
encoding, and response). -/
theorem spec_c9_success_roundtrip (ui ci : Option Str) (env : CoreEnv)
    (u : Str) (rb : List Nat)
    (hu : truthyOpt ui = true) (hc : truthyOpt ci = true)
    (hwp : env.writePerson = Except.ok ()) (hwc : env.writeCloth = Except.ok ())
    (hci : env.clientInit = Except.ok ()) (hrw : env.raceWinner = RaceW.pred)
    (hpo : env.predictOutcome = Except.ok ⟨[GItem.str u]⟩)
    (hhttp : startsWithHttp u = true)
    (hf : env.fetchRes u = Except.ok rb) (hb : ∀ b ∈ rb, b < 256) :
    (serverHandler ui ci env).resp.code = 200
    ∧ (serverHandler ui ci env).resp.status = strL "success"
    ∧ (serverHandler ui ci env).resp.result = some (b64Encode rb)
    ∧ ((serverHandler ui ci env).resp.result).map b64DecodeStr = some rb := by
  have hu' := startsWithHttp_truthy hhttp
  have hext : extractOutput ⟨[GItem.str u]⟩ = some u := by
    simp [extractOutput, hu']
  have hres : (serverHandler ui ci env).resp
      = ⟨200, strL "success", none, none, some (b64Encode rb), none⟩ := by
    simp [serverHandler, hu, hc, coreRun, coreBody, hwp, hwc, hci, hrw, hpo,
      hext, hhttp, hf]
  refine ⟨by rw [hres], by rw [hres], by rw [hres], ?_⟩
  rw [hres]
  simp [b64_decode_encode rb hb]

theorem spec_c9_success_roundtrip_witness :
    (serverHandler (some (strL "personimagedata")) (some (strL "garmentimagedata"))
      okEnv).resp.code = 200
    ∧ (serverHandler (some (strL "personimagedata")) (some (strL "garmentimagedata"))
        okEnv).resp.result = some (b64Encode [1, 2, 3])
    ∧ ((serverHandler (some (strL "personimagedata")) (some (strL "garmentimagedata"))
        okEnv).resp.result).map b64DecodeStr = some [1, 2, 3] :=
  let h := spec_c9_success_roundtrip (some (strL "personimagedata"))
    (some (strL "garmentimagedata")) okEnv (strL "http://h/out.png") [1, 2, 3]
    rfl rfl rfl rfl rfl rfl rfl (by decide) rfl (by decide)
  ⟨h.1, h.2.2.1, h.2.2.2⟩

/-- The per-request temp file written by base64ToTempFile, identified by
its decoded contents. -/
structure TempFile where
  contents : List Nat
deriving DecidableEq

/-- base64ToTempFile of src/services/VirtualTryOnService.js: decode the
input (total, lenient) and write it to a fresh temp file; only a failure
of the write itself can raise, and no validation of the decoded content
ever happens. -/
def base64ToTempFile (writeOk : Bool) (s : Str) : Except Str TempFile :=
  if writeOk then .ok ⟨base64ToBuffer s⟩
  else .error (strL "EACCES: permission denied")

lemma charToSextet_lt {c : Char} {n : Nat} (h : charToSextet c = some n) : n < 64 := by
  unfold charToSextet at h
  split_ifs at h <;> simp_all <;> omega

lemma sextetsToBytes_lt (l : List Nat) (h : ∀ x ∈ l, x < 64) :
    ∀ b ∈ sextetsToBytes l, b < 256 := by
  match l with
  | [] => intro b hb; simp [sextetsToBytes] at hb
  | [a] => intro b hb; simp [sextetsToBytes] at hb
  | [a, b'] =>
    intro b hb
    have ha := h a (by simp)
    have hb' := h b' (by simp)
    simp [sextetsToBytes] at hb
    omega
  | [a, b', c] =>
    intro b hb
    have ha := h a (by simp)
    have hb' := h b' (by simp)
    have hc := h c (by simp)
    simp [sextetsToBytes] at hb
    rcases hb with hb | hb <;> omega
  | a :: b' :: c :: d :: rest =>
    intro b hb
    have ha := h a (by simp)
    have hb' := h b' (by simp)
    have hc := h c (by simp)
    have hd := h d (by simp)
    have ih := sextetsToBytes_lt rest (fun x hx => h x (by simp [hx]))
    simp only [sextetsToBytes, List.mem_cons] at hb
    rcases hb with hb | hb | hb | hb
    · omega
    · omega
    · omega
    · exact ih b hb
termination_by l.length

lemma b64DecodeStr_lt (s : Str) : ∀ b ∈ b64DecodeStr s, b < 256 := by
  apply sextetsToBytes_lt
  intro x hx
  rcases List.mem_filterMap.mp hx with ⟨c, _, hc⟩
  exact charToSextet_lt hc

lemma begMatch_self_append (l t : Str) : begMatch l (l ++ t) = true := by
  induction l with
  | nil => rfl
  | cons c cs ih => simp [begMatch, ih]

lemma splitFirst_self_append (sep t : Str) (hne : sep ≠ []) :
    splitFirst sep (sep ++ t) = some ([], t) := by
  cases sep with
  | nil => exact absurd rfl hne
  | cons c cs =>
    show splitFirst (c :: cs) (c :: (cs ++ t)) = some ([], t)
    unfold splitFirst
    rw [if_pos (show begMatch (c :: cs) (c :: (cs ++ t)) = true from
      begMatch_self_append (c :: cs) t)]
    simp [List.drop_left]

lemma splitFirst_marker_append (pre post : Str) (hpre : ∀ c ∈ pre, c ≠ ';') :
    splitFirst b64MarkerL (pre ++ (b64MarkerL ++ post)) = some (pre, post) := by
  induction pre with
  | nil =>
    simpa using splitFirst_self_append b64MarkerL post (by decide)
  | cons c cs ih =>
    have hc : c ≠ ';' := hpre c (by simp)
    show splitFirst b64MarkerL (c :: (cs ++ (b64MarkerL ++ post))) = _
    unfold splitFirst
    have hbm : begMatch b64MarkerL (c :: (cs ++ (b64MarkerL ++ post))) = false := by
      have : b64MarkerL = ';' :: strL "base64," := rfl
      rw [this]
      simp [begMatch, Ne.symm hc]
    rw [hbm]
    simp only [Bool.false_eq_true, if_false]
    rw [ih (fun x hx => hpre x (by simp [hx]))]

/-- C10: base64ToBuffer is total — for every input string it yields a list
of genuine bytes (each below 256) and never raises, even on strings that
are not valid base64; it takes the segment after an optional ';base64,'
data-URI marker; and consequently base64ToTempFile stages every payload
that reaches it (whenever the write itself succeeds), with contents
exactly the decoded bytes and no validation of image content. -/
theorem spec_c10_decode_total (s pre post : Str)
    (hpre : ∀ c ∈ pre, c ≠ ';')
    (hpost : splitFirst b64MarkerL post = none) :
    (∀ b ∈ base64ToBuffer s, b < 256)
    ∧ base64ToTempFile true s = .ok ⟨base64ToBuffer s⟩
    ∧ base64ToBuffer (pre ++ (b64MarkerL ++ post)) = b64DecodeStr post := by
  refine ⟨b64DecodeStr_lt _, rfl, ?_⟩
  unfold base64ToBuffer extractDataPayload
  simp only [splitFirst_marker_append pre post hpre, hpost]

theorem spec_c10_decode_total_witness :
    (∀ b ∈ base64ToBuffer (strL "!!not base64 at all??"), b < 256)
    ∧ base64ToTempFile true (strL "!!not base64 at all??")
        = .ok ⟨base64ToBuffer (strL "!!not base64 at all??")⟩
    ∧ base64ToBuffer (strL "data:image/png;base64,aGk=") = b64DecodeStr (strL "aGk=") :=
  let h := spec_c10_decode_total (strL "!!not base64 at all??")
    (strL "data:image/png") (strL "aGk=") (by decide) (by decide)
  ⟨h.1, h.2.1, h.2.2⟩

end VtonWidget
